import Mathlib

/-!
Shallow embedding of the notification / authorization / registration core of
the student-exam records backend (FastAPI + aiogram bot), together with
theorems checking the natural-language specification against it.

Conventions of the embedding:
* database tables are lists of row structures; SQL `select ... where` is
  `List.filter`, `scalars().first()` is `head?` of the filter,
  `scalar_one_or_none` distinguishes zero / one / many matching rows;
* Python exceptions are `Except`: a service that can raise returns
  `Except SvcError _`; handlers that catch every exception are total;
* machine integers are `Int` (Python ints are unbounded);
* the outbound Telegram transport is an oracle `Int → String → SendOutcome`
  deciding, per (chat id, text), whether `send_message` succeeds, raises
  `TelegramBadRequest`, or raises some other exception.
-/

/-- Split a character list at every character satisfying `p`, keeping empty
pieces (the semantics of `str.split(sep)`); implemented on `List Char` so
that the kernel can evaluate it. -/
def splitPredAux (p : Char → Bool) : List Char → List Char → List (List Char)
  | [], acc => [acc.reverse]
  | c :: rest, acc =>
    if p c then acc.reverse :: splitPredAux p rest []
    else splitPredAux p rest (c :: acc)

/-- Lower-case one character (ASCII, as far as the claims need it). -/
def lowerChar (c : Char) : Char :=
  if 65 ≤ c.toNat && c.toNat ≤ 90 then Char.ofNat (c.toNat + 32) else c

/-- `s.lower()` (ASCII fold; all case-folded comparisons in the claims are
on ASCII or on already-lower-case text). -/
def lowerStr (s : String) : String := String.mk (s.data.map lowerChar)

/-- `s.strip()`: drop leading and trailing whitespace. -/
def pyStrip (s : String) : String :=
  String.mk (((s.data.dropWhile Char.isWhitespace).reverse.dropWhile
    Char.isWhitespace).reverse)

/-- `s.split()` of Python: split on whitespace runs, dropping empty tokens. -/
def pySplitWs (s : String) : List String :=
  ((splitPredAux (fun c => c.isWhitespace) s.data []).map String.mk).filter
    (fun t => t ≠ "")

/-- Digits-only string to `Nat` (`none` if empty or a non-digit occurs). -/
def parseNatAll (s : String) : Option Nat :=
  if s.length > 0 && s.data.all (fun c => c.isDigit) then
    some (s.data.foldl (fun acc c => acc * 10 + (c.toNat - 48)) 0)
  else none

/-- Python `int(s)` on a string: optional sign after stripping whitespace,
then decimal digits.  (Underscore separators are not modelled; no input in
this development uses them.) -/
def pyIntOfString (s : String) : Option Int :=
  let t := pyStrip s
  match t.data with
  | '-' :: rest => (parseNatAll (String.mk rest)).map (fun n => -(n : Int))
  | '+' :: rest => (parseNatAll (String.mk rest)).map (fun n => (n : Int))
  | _ => (parseNatAll t).map (fun n => (n : Int))

/-- Case-insensitive equality, modelling SQL `ILIKE` on wildcard-free
patterns as used by the name lookups. -/
def ilikeEq (a b : String) : Bool := lowerStr a == lowerStr b

/-- Lexicographic `≤` on character lists: the comparison SQL applies to the
string-encoded `holding_date` column in `Exam.holding_date >= today`. -/
def lexLe : List Char → List Char → Bool
  | [], _ => true
  | _ :: _, [] => false
  | a :: as, b :: bs => if a < b then true else if a == b then lexLe as bs else false

/-- SQL string `≤` on the UTF-8 text values. -/
def sqlStrLe (a b : String) : Bool := lexLe a.data b.data

/-- Decidable equality of `Except` results, for evaluating witnesses. -/
instance exceptDecEq [DecidableEq e] [DecidableEq a] : DecidableEq (Except e a) :=
  fun x y =>
    match x, y with
    | .ok u, .ok v =>
      if h : u = v then isTrue (by rw [h]) else isFalse (by intro hh; cases hh; exact h rfl)
    | .error u, .error v =>
      if h : u = v then isTrue (by rw [h]) else isFalse (by intro hh; cases hh; exact h rfl)
    | .ok _, .error _ => isFalse (by intro hh; cases hh)
    | .error _, .ok _ => isFalse (by intro hh; cases hh)

/-- `concatMap` used to model Python `for` loops that emit events. -/
def listFlatMap (f : α → List β) : List α → List β
  | [] => []
  | a :: as => f a ++ listFlatMap f as

/-- A calendar date as produced by `datetime.strptime(s, "%Y-%m-%d").date()`. -/
structure Date where
  year : Nat
  month : Nat
  day : Nat
deriving DecidableEq, Repr

def isLeapYear (y : Nat) : Bool :=
  (y % 4 == 0 && y % 100 != 0) || y % 400 == 0

def daysInMonth (y m : Nat) : Nat :=
  if m == 2 then (if isLeapYear y then 29 else 28)
  else if m == 4 || m == 6 || m == 9 || m == 11 then 30
  else 31

def daysBeforeMonth (y m : Nat) : Nat :=
  (List.range (m - 1)).foldl (fun acc i => acc + daysInMonth y (i + 1)) 0

/-- Proleptic-Gregorian ordinal of a date (`date.toordinal()` in Python);
only differences of ordinals are used, exactly like `(d1 - d2).days`. -/
def dayNumber (d : Date) : Int :=
  ((365 * (d.year - 1) + (d.year - 1) / 4 - (d.year - 1) / 100 + (d.year - 1) / 400
      + daysBeforeMonth d.year d.month + d.day : Nat) : Int)

/-- `datetime.strptime(s, "%Y-%m-%d")`: dash-separated year (1-4 digits),
month (1-2 digits, 1-12) and day (1-2 digits, valid for the month);
`none` models the `ValueError` raised on any other shape. -/
def parseDate (s : String) : Option Date :=
  match (splitPredAux (fun c => c == '-') s.data []).map String.mk with
  | [ys, ms, ds] =>
    match parseNatAll ys, parseNatAll ms, parseNatAll ds with
    | some y, some m, some d =>
      if ys.length ≤ 4 && ms.length ≤ 2 && ds.length ≤ 2
          && 1 ≤ y && y ≤ 9999 && 1 ≤ m && m ≤ 12
          && 1 ≤ d && d ≤ daysInMonth y m then
        some ⟨y, m, d⟩
      else none
    | _, _, _ => none
  | _ => none

/-- Zero-pad a number to width `w`. -/
def padNum (w n : Nat) : String :=
  let s := toString n
  String.mk (List.replicate (w - s.length) '0') ++ s

/-- `today.strftime("%Y-%m-%d")`. -/
def dateToString (d : Date) : String :=
  padNum 4 d.year ++ "-" ++ padNum 2 d.month ++ "-" ++ padNum 2 d.day

/-! ## Data model (`app/models`) -/

/-- `telegram` table: `id` primary key, `telegram_id` the external chat id. -/
structure TelegramRow where
  id : Int
  telegram_id : Int
deriving DecidableEq, Repr

/-- `student` table (fields relevant to the core). -/
structure StudentRow where
  id : Int
  first_name : String
  last_name : String
  patronymic : String
  group_id : Int
  telegram_id : Option Int
  password : Option String
  verif : Bool
deriving DecidableEq, Repr

/-- `curator` table (no telegram column exists on it). -/
structure CuratorRow where
  id : Int
  first_name : String
  last_name : String
  patronymic : String
  password : Option String
deriving DecidableEq, Repr

/-- `group` table. -/
structure GroupRow where
  id : Int
  name : String
  curator_id : Int
deriving DecidableEq, Repr

/-- `exam` table. -/
structure ExamRow where
  id : Int
  type : String
  semester : Int
  course : Int
  discipline : String
  holding_date : String
  link : Option String
  group_id : Int
  curator_id : Int
deriving DecidableEq, Repr

/-- `marks` table; `mark` is nullable ("not yet graded"). -/
structure MarkRow where
  id : Int
  mark : Option Int
  exam_id : Int
  student_id : Int
deriving DecidableEq, Repr

/-- The database state seen by one logical operation. -/
structure DB where
  curators : List CuratorRow
  groups : List GroupRow
  students : List StudentRow
  exams : List ExamRow
  marks : List MarkRow
  telegrams : List TelegramRow
deriving DecidableEq, Repr

/-- Error taxonomy of the services: `HTTPException(404)`, `HTTPException(400)`
and the 500-ish internal failures. -/
inductive SvcError
  | notFound
  | badRequest
  | internal
deriving DecidableEq, Repr

/-! ## Recipient Resolver (`ExamService.get_telegram_ids_by_exam_id`) -/

/-- `select(Exam).where(Exam.id == exam_id)` followed by
`scalar_one_or_none()`: `none` rows -> `None`, one row -> the row, several
rows -> `MultipleResultsFound` (an `SQLAlchemyError`, surfaced as 500). -/
def scalarOneOrNone (rows : List α) : Except SvcError (Option α) :=
  match rows with
  | [] => .ok none
  | [r] => .ok (some r)
  | _ => .error .internal

/-- `ExamService.get_telegram_ids_by_exam_id`: 404 when the exam id does not
resolve; otherwise the chat ids produced by joining `telegram` with
`student` on `student.telegram_id == telegram.id`, restricted to the exam's
group (the join itself discharges `Student.telegram_id.is_not(None)`). -/
def get_telegram_ids_by_exam_id (db : DB) (exam_id : Int) : Except SvcError (List Int) :=
  match scalarOneOrNone (db.exams.filter (fun e => e.id == exam_id)) with
  | .error e => .error e
  | .ok none => .error .notFound
  | .ok (some exam) =>
    .ok (listFlatMap (fun (t : TelegramRow) =>
      (db.students.filter (fun s =>
        s.telegram_id == some t.id && s.group_id == exam.group_id)).map
          (fun _ => t.telegram_id)) db.telegrams)

/-- `ExamService.get_exam_details`: `scalar_one_or_none`, no 404 (the caller
receives `None` when absent). -/
def get_exam_details (db : DB) (exam_id : Int) : Except SvcError (Option ExamRow) :=
  scalarOneOrNone (db.exams.filter (fun e => e.id == exam_id))

/-! ## Outbound transport and the mark notifier (`app/utils/bot.py`,
`app/services/mark.py`) -/

/-- Outcome of one `bot.send_message` call: success, `TelegramBadRequest`,
or any other exception (blocked bot, network failure, ...). -/
inductive SendOutcome
  | ok
  | badRequest
  | otherError
deriving DecidableEq, Repr

/-- Events observable from `notify_student_mark` (log lines and sends). -/
inductive NotifEvent
  | sent (chat : Int) (text : String)
  | skipNoChatLogged (student_id : Int)
  | sendFailLogged (student_id : Int)
  | errorLogged (student_id : Int)
deriving DecidableEq, Repr

/-- The chat id `notify_student_mark` resolves for a student: the student
row, its `telegram` relationship, and the falsy check
`not student.telegram.telegram_id` (chat id `0` counts as missing). -/
def studentChat (db : DB) (student_id : Int) : Option Int :=
  match (db.students.filter (fun s => s.id == student_id)).head? with
  | none => none
  | some s =>
    match s.telegram_id with
    | none => none
    | some tid =>
      match (db.telegrams.filter (fun t => t.id == tid)).head? with
      | none => none
      | some t => if t.telegram_id == 0 then none else some t.telegram_id

/-- Message text of the mark notification. -/
def markNotifText (exam_name : String) (mark : Option Int) : String :=
  let mark_text := match mark with | some m => toString m | none => "н/а"
  "🎓 Ваша оценка по предмету <b>" ++ exam_name ++ "</b> обновлена:\n⭐ Оценка: <b>"
    ++ mark_text ++ "</b>"

/-- `notify_student_mark`: resolves the student's chat, sends once;
`TelegramBadRequest` and every other exception are caught inside, so the
function is total (never raises to its caller). -/
def notify_student_mark (db : DB) (outcome : Int → String → SendOutcome)
    (student_id : Int) (exam_name : String) (mark : Option Int) : List NotifEvent :=
  match studentChat db student_id with
  | none => [.skipNoChatLogged student_id]
  | some chat =>
    let text := markNotifText exam_name mark
    match outcome chat text with
    | .ok => [.sent chat text]
    | .badRequest => [.sendFailLogged student_id]
    | .otherError => [.errorLogged student_id]

/-- One queued notification: `(student_id, exam_name, mark)`. -/
structure MarkNotif where
  student_id : Int
  exam_name : String
  mark : Option Int
deriving DecidableEq, Repr

/-- `send_notifications_with_delay`: delivers the queued notifications one at
a time (10 s apart); the per-item `except Exception` makes every iteration
total, so the loop always reaches the end of the batch. -/
def send_notifications_with_delay (db : DB) (outcome : Int → String → SendOutcome)
    (notifications : List MarkNotif) : List NotifEvent :=
  listFlatMap (fun n => notify_student_mark db outcome n.student_id n.exam_name n.mark)
    notifications

/-! ## Mark service (`MarkService.batch_update_marks`,
`MarkService.import_marks_from_table`) -/

/-- Value handling of `batch_update_marks`: `None` and the strings
`'н/а'/'нет'/''` (after `.lower()`) mean "no mark"; otherwise `int(...)`
must succeed and lie in 0..5, else `HTTPException(400)`. -/
def parseMarkValue (raw : Option String) : Except SvcError (Option Int) :=
  match raw with
  | none => .ok none
  | some r =>
    if lowerStr r == "н/а" || lowerStr r == "нет" || lowerStr r == "" then .ok none
    else
      match pyIntOfString r with
      | none => .error .badRequest
      | some m => if m < 0 || m > 5 then .error .badRequest else .ok (some m)

/-- One item of the batch payload (`MarkUpdateItem` schema: ints plus a
whitespace-stripped string mark; the service also tolerates a missing mark). -/
structure MarkUpdateItem where
  student_id : Int
  exam_id : Int
  mark : Option String
deriving DecidableEq, Repr

/-- Mutate the first `marks` row matching the `(student, exam)` pair. -/
def setFirstMark : List MarkRow → Int → Int → Option Int → List MarkRow
  | [], _, _, _ => []
  | r :: rs, sid, eid, v =>
    if r.student_id == sid && r.exam_id == eid then
      ⟨r.id, v, r.exam_id, r.student_id⟩ :: rs
    else r :: setFirstMark rs sid eid v

/-- Fresh autoincrement id for an inserted `marks` row. -/
def nextMarkId (rows : List MarkRow) : Int :=
  (rows.map (fun r => r.id)).foldr max 0 + 1

/-- One iteration of the `batch_update_marks` loop: the falsy check on the
ids, value validation, exam lookup for the notification title, then the
upsert; returns the updated table, whether `updated_count` grew, and the
notification appended (if any). -/
def batchStep (db : DB) (marks : List MarkRow) (item : MarkUpdateItem) :
    Except SvcError (List MarkRow × Bool × Option MarkNotif) :=
  if item.student_id == 0 || item.exam_id == 0 then .error .badRequest
  else
    match parseMarkValue item.mark with
    | .error e => .error e
    | .ok mark =>
      match get_exam_details db item.exam_id with
      | .error e => .error e
      | .ok exam =>
        let exam_name := match exam with | some e => e.discipline | none => "Экзамен"
        match (marks.filter (fun r =>
            r.student_id == item.student_id && r.exam_id == item.exam_id)).head? with
        | some existing =>
          if existing.mark ≠ mark then
            .ok (setFirstMark marks item.student_id item.exam_id mark, true,
              some ⟨item.student_id, exam_name, mark⟩)
          else
            .ok (marks, false, none)
        | none =>
          .ok (marks ++ [⟨nextMarkId marks, mark, item.exam_id, item.student_id⟩], true,
            some ⟨item.student_id, exam_name, mark⟩)

/-- The loop of `batch_update_marks` over the whole payload. -/
def batchGo (db : DB) (items : List MarkUpdateItem) (marks : List MarkRow)
    (count : Nat) (notifs : List MarkNotif) :
    Except SvcError (List MarkRow × Nat × List MarkNotif) :=
  match items with
  | [] => .ok (marks, count, notifs)
  | item :: rest =>
    match batchStep db marks item with
    | .error e => .error e
    | .ok (marks', inc, n?) =>
      batchGo db rest marks' (count + if inc then 1 else 0) (notifs ++ n?.toList)

/-- `MarkService.batch_update_marks` as a transaction: on success the loop's
result is committed and the notifications are enqueued as one background
task; on any raised error `db.commit()` is never reached, so the stored
state is unchanged and nothing is enqueued. Returns the committed database
together with either `(updated_count, queued notifications)` or the error. -/
def batch_update_marks (db : DB) (items : List MarkUpdateItem) :
    DB × Except SvcError (Nat × List MarkNotif) :=
  match batchGo db items db.marks 0 [] with
  | .ok (marks', count, notifs) =>
    (⟨db.curators, db.groups, db.students, db.exams, marks', db.telegrams⟩,
      .ok (count, notifs))
  | .error e => (db, .error e)

/-- One row of the table-import payload. -/
structure MarkImportEntry where
  id : Int
  last_fist_name : String
  mark : Option String
deriving DecidableEq, Repr

/-- Why `import_marks_from_table` rejected an entry (the error strings it
accumulates, abstracted to tags). -/
inductive ImportErr
  | badName
  | studentMissing
  | outOfRange
  | notNumber
  | entryError
deriving DecidableEq, Repr

/-- One iteration of the `import_marks_from_table` loop: name split, student
lookup by first/last name (`ILIKE`), value normalisation with the 2..5 range
check, then the upsert; rejected entries record an error and change nothing. -/
def importStep (db : DB) (marks : List MarkRow) (entry : MarkImportEntry) :
    List MarkRow × Bool × Option ImportErr :=
  let name_parts := pySplitWs (pyStrip entry.last_fist_name)
  match name_parts with
  | [] => (marks, false, some .badName)
  | [_] => (marks, false, some .badName)
  | last_name :: first_name :: _ =>
    match (db.students.filter (fun s =>
        ilikeEq s.first_name first_name && ilikeEq s.last_name last_name)).head? with
    | none => (marks, false, some .studentMissing)
    | some student =>
      let raw := entry.mark.map (fun m => lowerStr (pyStrip m))
      let parsed : Except ImportErr (Option Int) :=
        match raw with
        | none => .ok none
        | some r =>
          if r == "н/а" || r == "na" then .ok none
          else
            match pyIntOfString r with
            | none => .error .notNumber
            | some v =>
              if v == 2 || v == 3 || v == 4 || v == 5 then .ok (some v)
              else .error .outOfRange
      match parsed with
      | .error e => (marks, false, some e)
      | .ok mark_value =>
        match (marks.filter (fun r =>
            r.exam_id == entry.id && r.student_id == student.id)).head? with
        | some _ => (setFirstMark marks student.id entry.id mark_value, true, none)
        | none =>
          (marks ++ [⟨nextMarkId marks, mark_value, entry.id, student.id⟩], true, none)

/-- The loop of `import_marks_from_table` (each entry is individually guarded
by `except Exception`, so the fold is total and ends in one commit). -/
def importGo (db : DB) (entries : List MarkImportEntry) (marks : List MarkRow)
    (count : Nat) (errs : List ImportErr) : List MarkRow × Nat × List ImportErr :=
  match entries with
  | [] => (marks, count, errs)
  | e :: rest =>
    let (marks', inc, err?) := importStep db marks e
    importGo db rest marks' (count + if inc then 1 else 0) (errs ++ err?.toList)

/-- `MarkService.import_marks_from_table`. -/
def import_marks_from_table (db : DB) (entries : List MarkImportEntry) :
    List MarkRow × Nat × List ImportErr :=
  importGo db entries db.marks 0 []

/-! ## Reminder Scheduler scan (`send_exam_reminders` in `app/utils/bot.py`) -/

/-- Events observable from one reminder scan: reminder sends,
`TelegramBadRequest` warnings, per-exam date-format errors (`ValueError`)
and per-exam unexpected errors (`except Exception`). -/
inductive ScanEvent
  | sent (chat : Int) (text : String)
  | sendFailLogged (chat : Int) (text : String)
  | dateErrorLogged (exam_id : Int)
  | examErrorLogged (exam_id : Int)
deriving DecidableEq, Repr

/-- `f"{last_name} {first_name} {patronymic or ''}".strip()` (the
`patronymic` column is non-nullable, so `or ''` only matters for `""`,
which `strip` removes again). -/
def curatorFioOf (c : CuratorRow) : String :=
  pyStrip (c.last_name ++ " " ++ c.first_name ++ " " ++ c.patronymic)

/-- The templated reminder text, parameterized by the exam type label, the
discipline, the "when" phrase, the stored date string and the curator's
full name. -/
def reminderText (exam_type discipline when_text holding_date curator_fio : String) :
    String :=
  "⏰ Напоминание\n📚 " ++ exam_type ++ " по <b>" ++ discipline ++ "</b> "
    ++ when_text ++ "!\n📅 Дата: " ++ holding_date
    ++ "\n👨‍🏫 Преподаватель: " ++ curator_fio

/-- `"завтра" if days_left == 1 else "через 3 дня"`. -/
def whenTextOf (days_left : Int) : String :=
  if days_left == 1 then "завтра" else "через 3 дня"

/-- `"Экзамен" if exam.type.lower() == "exam" else "Зачёт"`. -/
def examTypeText (t : String) : String :=
  if lowerStr t == "exam" then "Экзамен" else "Зачёт"

/-- The inner send loop of `send_exam_reminders`: only `TelegramBadRequest`
is caught per recipient; any other send exception escapes the loop (the
boolean result) to the per-exam `except Exception` handler, abandoning the
remaining recipients of this exam. -/
def reminderSendLoop (outcome : Int → String → SendOutcome) (text : String) :
    List Int → List ScanEvent × Bool
  | [] => ([], false)
  | tg :: rest =>
    match outcome tg text with
    | .ok =>
      let r := reminderSendLoop outcome text rest
      (.sent tg text :: r.1, r.2)
    | .badRequest =>
      let r := reminderSendLoop outcome text rest
      (.sendFailLogged tg text :: r.1, r.2)
    | .otherError => ([], true)

/-- The per-exam body of the scan, in source order: parse the date
(`ValueError` -> logged skip), read the curator relation (a missing row
would surface as the generic per-exam error), compute `days_left`, and only
when it is exactly 1 or 3 resolve recipients and run the send loop. -/
def processExamReminder (db : DB) (outcome : Int → String → SendOutcome)
    (today : Date) (e : ExamRow) : List ScanEvent :=
  match parseDate e.holding_date with
  | none => [.dateErrorLogged e.id]
  | some exam_date =>
    match (db.curators.filter (fun c => c.id == e.curator_id)).head? with
    | none => [.examErrorLogged e.id]
    | some cur =>
      let days_left := dayNumber exam_date - dayNumber today
      if days_left == 1 || days_left == 3 then
        match get_telegram_ids_by_exam_id db e.id with
        | .error _ => [.examErrorLogged e.id]
        | .ok tids =>
          let text := reminderText (examTypeText e.type) e.discipline
            (whenTextOf days_left) e.holding_date (curatorFioOf cur)
          let r := reminderSendLoop outcome text tids
          r.1 ++ (if r.2 then [.examErrorLogged e.id] else [])
      else []

/-- The scan's fetch: `Exam.holding_date >= today.strftime("%Y-%m-%d")`, a
string comparison on the stored date column. -/
def fetchUpcomingExams (db : DB) (today : Date) : List ExamRow :=
  db.exams.filter (fun e => sqlStrLe (dateToString today) e.holding_date)

/-- `send_exam_reminders`: one scheduler scan over all fetched exams. -/
def send_exam_reminders (db : DB) (outcome : Int → String → SendOutcome)
    (today : Date) : List ScanEvent :=
  listFlatMap (processExamReminder db outcome today) (fetchUpcomingExams db today)

/-! ## Registration state machine (`app/utils/bot.py` handlers) -/

/-- aiogram FSM state of one conversation (`None`, `choosing_role`, `fio`,
`pwd`). -/
inductive RegState
  | idle
  | choosing_role
  | fio
  | pwd
deriving DecidableEq, Repr

/-- The conversation's `state.update_data` dictionary (the keys the flow
uses). -/
structure ConvData where
  role : Option String
  fio : Option String
  user_id : Option Int
  fio_prompt_msg_id : Option Int
deriving DecidableEq, Repr

/-- `state.clear()` resets the data dictionary. -/
def emptyConvData : ConvData := ⟨none, none, none, none⟩

/-- One conversation: current FSM state plus stored data. -/
structure Conv where
  state : RegState
  data : ConvData
deriving DecidableEq, Repr

/-- Replies the registration handlers can produce, abstracted to tags. -/
inductive BotReply
  | alreadyRegistered
  | welcomePhoto
  | fioPrompt
  | fioFormatError
  | userNotFound
  | passwordPrompt
  | passwordTooShort
  | registrationDone
  | registrationFailed
deriving DecidableEq, Repr

/-- `validate_fio`: the input must split into exactly three tokens. -/
def validate_fio (fio : String) : Bool :=
  (pySplitWs fio).length == 3

/-- `StudentService.get_student_by_fio` without the raise: `scalars().first()`
of the case-insensitive three-part match (the bot's 404 is modelled by
`none`). -/
def get_student_by_fio (db : DB) (first_name last_name patronymic : String) :
    Option StudentRow :=
  (db.students.filter (fun s =>
    ilikeEq s.first_name first_name && ilikeEq s.last_name last_name
      && ilikeEq s.patronymic patronymic)).head?

/-- `CuratorService.get_curator_by_fio`, same shape. -/
def get_curator_by_fio (db : DB) (first_name last_name patronymic : String) :
    Option CuratorRow :=
  (db.curators.filter (fun c =>
    ilikeEq c.first_name first_name && ilikeEq c.last_name last_name
      && ilikeEq c.patronymic patronymic)).head?

/-- `send_welcome_photo` (the `/start` entry point): clear the conversation,
short-circuit with "already registered" when any `telegram` row holds the
caller's chat id, otherwise show the role keyboard and enter
`choosing_role`. -/
def send_welcome_photo (db : DB) (chat_id : Int) (_conv : Conv) : Conv × List BotReply :=
  let cleared : Conv := ⟨.idle, emptyConvData⟩
  if (db.telegrams.map (fun t => t.telegram_id)).contains chat_id then
    (cleared, [.alreadyRegistered])
  else
    (⟨.choosing_role, cleared.data⟩, [.welcomePhoto])

/-- `choose_role`: remember the picked role, enter the `fio` state, send the
name prompt and remember its message id. -/
def choose_role (conv : Conv) (role : String) (prompt_msg_id : Int) : Conv × List BotReply :=
  (⟨.fio, ⟨some role, conv.data.fio, conv.data.user_id, some prompt_msg_id⟩⟩,
    [.fioPrompt])

/-- `fio_handler`: token-count validation re-prompts and stays; on a valid
shape the three parts are matched (case-insensitively) against the chosen
role's table; a miss is caught by the handler's `except`, which only sends
the failure message — the state is left as it was (still `fio`) and the
stored data keeps the entered name. -/
def fio_handler (db : DB) (conv : Conv) (text : String) : Conv × List BotReply :=
  let fio_input := pyStrip text
  if !validate_fio fio_input then
    (conv, [.fioFormatError])
  else
    match pySplitWs fio_input with
    | [t0, t1, t2] =>
      let data1 : ConvData :=
        ⟨conv.data.role, some (lowerStr fio_input), conv.data.user_id,
          conv.data.fio_prompt_msg_id⟩
      let found : Option Int :=
        if conv.data.role == some "student" then
          (get_student_by_fio db t1 t0 t2).map (fun s => s.id)
        else
          (get_curator_by_fio db t1 t0 t2).map (fun c => c.id)
      match found with
      | some uid =>
        (⟨.pwd, ⟨data1.role, data1.fio, some uid, data1.fio_prompt_msg_id⟩⟩,
          [.passwordPrompt])
      | none => (⟨conv.state, data1⟩, [.userNotFound])
    | _ => (conv, [.fioFormatError])

/-- Fresh autoincrement id for an inserted `telegram` row. -/
def nextTelegramRowId (rows : List TelegramRow) : Int :=
  (rows.map (fun r => r.id)).foldr max 0 + 1

/-- The external password hasher (passlib), abstracted: only the fact that a
hash is stored matters to the claims. -/
def hash_password (p : String) : String := p

/-- `StudentService.set_student_password_and_telegram`: 404 when the student
id is unknown; otherwise reuse the `telegram` row holding this chat id (or
insert one), then store the password hash, bind the row and set
`verif = True`, committing the result. -/
def set_student_password_and_telegram (db : DB) (student_id : Int)
    (password : String) (telegram_chat : Int) : Except SvcError DB :=
  match (db.students.filter (fun s => s.id == student_id)).head? with
  | none => .error .notFound
  | some _ =>
    let existing := (db.telegrams.filter (fun t => t.telegram_id == telegram_chat)).head?
    let pair : List TelegramRow × Int :=
      match existing with
      | some t => (db.telegrams, t.id)
      | none =>
        let nid := nextTelegramRowId db.telegrams
        (db.telegrams ++ [⟨nid, telegram_chat⟩], nid)
    .ok (⟨db.curators, db.groups,
      db.students.map (fun (s : StudentRow) =>
        if s.id == student_id then
          ⟨s.id, s.first_name, s.last_name, s.patronymic, s.group_id,
            some pair.2, some (hash_password password), true⟩
        else s),
      db.exams, db.marks, pair.1⟩ : DB)

/-! ## Role-scoped list queries (`get_all_exams`, `get_all_groups`,
`get_all_students`) -/

/-- The verified caller as the endpoints see it (`{sub, role, id}` from the
signed token). -/
structure CurrentUser where
  id : Int
  role : String
deriving DecidableEq, Repr

/-- `ExamService.get_all_exams`: filter by exam type, and additionally by
`Exam.curator_id == current_user["id"]` when the caller's role is
`curator`. -/
def get_all_exams (db : DB) (exam_type : String) (u : CurrentUser) : List ExamRow :=
  let base := db.exams.filter (fun e => e.type == exam_type)
  if u.role == "curator" then base.filter (fun e => e.curator_id == u.id) else base

/-- One row of `GroupService.get_all_groups`'s response:
`(group_id, name, curator_id, students_count)`. -/
structure GroupListItem where
  group_id : Int
  name : String
  curator_id : Int
  students_count : Nat
deriving DecidableEq, Repr

/-- `GroupService.get_all_groups`: outer-join student count per group, with
the same curator scoping. -/
def get_all_groups (db : DB) (u : CurrentUser) : List GroupListItem :=
  let base :=
    if u.role == "curator" then db.groups.filter (fun g => g.curator_id == u.id)
    else db.groups
  base.map (fun g =>
    ⟨g.id, g.name, g.curator_id,
      (db.students.filter (fun s => s.group_id == g.id)).length⟩)

/-- `StudentService.get_all_students`: when the caller is a curator, join
through the student's group and keep the groups the curator owns. -/
def get_all_students (db : DB) (u : CurrentUser) : List StudentRow :=
  if u.role == "curator" then
    db.students.filter (fun s =>
      db.groups.any (fun g => g.id == s.group_id && g.curator_id == u.id))
  else db.students

/-! ## Derived observation helpers -/

/-- The single event one queued mark notification produces (the body of
`notify_student_mark`, per item). -/
def notifyEventOf (db : DB) (outcome : Int → String → SendOutcome) (n : MarkNotif) :
    NotifEvent :=
  match studentChat db n.student_id with
  | none => .skipNoChatLogged n.student_id
  | some chat =>
    match outcome chat (markNotifText n.exam_name n.mark) with
    | .ok => .sent chat (markNotifText n.exam_name n.mark)
    | .badRequest => .sendFailLogged n.student_id
    | .otherError => .errorLogged n.student_id

/-- The notification title `batch_update_marks` derives from the exam
lookup (`exam.discipline if exam else "Экзамен"`). -/
def examNameOf (exam_opt : Option ExamRow) : String :=
  match exam_opt with
  | some e => e.discipline
  | none => "Экзамен"

/-- Number of successful-send events in a reminder-scan event list. -/
def countSentScan (evs : List ScanEvent) : Nat :=
  (evs.filter (fun ev => match ev with | ScanEvent.sent _ _ => true | _ => false)).length

/-- Number of per-recipient logged delivery-failure events in a
reminder-scan event list. -/
def countFailScan (evs : List ScanEvent) : Nat :=
  (evs.filter (fun ev =>
    match ev with | ScanEvent.sendFailLogged _ _ => true | _ => false)).length

/-- Number of successful-send events in a mark-notifier event list. -/
def countSentNotif (evs : List NotifEvent) : Nat :=
  (evs.filter (fun ev => match ev with | NotifEvent.sent _ _ => true | _ => false)).length

/-- Number of logged delivery-failure events in a mark-notifier event list. -/
def countFailNotif (evs : List NotifEvent) : Nat :=
  (evs.filter (fun ev =>
    match ev with
    | NotifEvent.sendFailLogged _ => true
    | NotifEvent.errorLogged _ => true
    | _ => false)).length

/-! ## Concrete instances used by witnesses and counterexamples -/

/-- A transport on which every send succeeds. -/
def okSend : Int → String → SendOutcome := fun _ _ => SendOutcome.ok

/-- A transport on which delivery to chat 1 raises a non-`BadRequest`
exception and every other delivery succeeds. -/
def chatOneCrashes : Int → String → SendOutcome :=
  fun c _ => if c == 1 then SendOutcome.otherError else SendOutcome.ok

/-- A transport on which delivery to chat 555 raises `TelegramBadRequest`
and every other delivery succeeds. -/
def chat555BadRequest : Int → String → SendOutcome :=
  fun c _ => if c == 555 then SendOutcome.badRequest else SendOutcome.ok

/-- Witness curator. -/
def curW : CuratorRow := ⟨1, "Иван", "Петров", "Сергеевич", none⟩

/-- Witness exam: 3 days after the witness "today". -/
def examW : ExamRow := ⟨1, "exam", 1, 1, "Математика", "2026-10-15", none, 1, 1⟩

/-- Witness exam with an unparsable stored date (still fetched, because the
fetch compares strings). -/
def examBadDate : ExamRow := ⟨2, "credits", 1, 1, "Физика", "2026-99-99", none, 1, 1⟩

/-- Witness database: one curator, one group, a student with a bound chat
handle (chat id 555) and one without, one well-dated and one badly-dated
exam, one mark row for (student 1, exam 1). -/
def dbW : DB :=
  ⟨[curW],
   [⟨1, "G1", 1⟩],
   [⟨1, "Олег", "Смирнов", "Иванович", 1, some 1, none, false⟩,
    ⟨2, "Анна", "Иванова", "Петровна", 1, none, none, false⟩],
   [examW, examBadDate],
   [⟨1, some 4, 1, 1⟩],
   [⟨1, 555⟩]⟩

/-- The witness scan day: 2026-10-12, three days before `examW`. -/
def todayW : Date := ⟨2026, 10, 12⟩

/-- Database for the batch-update scenario: three mark rows for exam 1. -/
def dbC4 : DB :=
  ⟨[curW],
   [⟨1, "G1", 1⟩],
   [⟨1, "Олег", "Смирнов", "Иванович", 1, some 1, none, false⟩,
    ⟨2, "Анна", "Иванова", "Петровна", 1, none, none, false⟩,
    ⟨3, "Пётр", "Козлов", "Олегович", 1, none, none, false⟩],
   [examW],
   [⟨1, some 4, 1, 1⟩, ⟨2, some 3, 1, 2⟩, ⟨3, none, 1, 3⟩],
   [⟨1, 555⟩]⟩

/-- Database for the curator-scoping counterexample: curator 1 owns no
group, yet one exam references curator 1. -/
def dbC7 : DB := ⟨[curW], [], [], [examW], [], []⟩

/-- A registration conversation sitting in the name-entry state with the
student role chosen. -/
def convFio : Conv := ⟨RegState.fio, ⟨some "student", none, none, some 10⟩⟩

/-- The database produced by a successful registration of student 2 from
chat 777 against `dbW` (the committed result of
`set_student_password_and_telegram dbW 2 "pass" 777`). -/
def dbWreg : DB :=
  ⟨[curW],
   [⟨1, "G1", 1⟩],
   [⟨1, "Олег", "Смирнов", "Иванович", 1, some 1, none, false⟩,
    ⟨2, "Анна", "Иванова", "Петровна", 1, some 2, some "pass", true⟩],
   [examW, examBadDate],
   [⟨1, some 4, 1, 1⟩],
   [⟨1, 555⟩, ⟨2, 777⟩]⟩

/-! ## Helper lemmas -/

theorem listFlatMap_nil (f : α → List β) : listFlatMap f [] = [] := rfl

theorem listFlatMap_cons (f : α → List β) (a : α) (as : List α) :
    listFlatMap f (a :: as) = f a ++ listFlatMap f as := rfl

theorem listFlatMap_append (f : α → List β) (l1 l2 : List α) :
    listFlatMap f (l1 ++ l2) = listFlatMap f l1 ++ listFlatMap f l2 := by
  induction l1 with
  | nil => simp [listFlatMap]
  | cons a as ih => simp [listFlatMap, ih]

theorem mem_listFlatMap (f : α → List β) (b : β) (l : List α) :
    b ∈ listFlatMap f l ↔ ∃ a ∈ l, b ∈ f a := by
  induction l with
  | nil => simp [listFlatMap]
  | cons a as ih => simp [listFlatMap, ih]

theorem listFlatMap_eq_nil_iff (f : α → List β) (l : List α) :
    listFlatMap f l = [] ↔ ∀ a ∈ l, f a = [] := by
  induction l with
  | nil => simp [listFlatMap]
  | cons a as ih => simp [listFlatMap, ih]

theorem scalarOneOrNone_ok_of_short (rows : List α) (h : rows.length ≤ 1) :
    scalarOneOrNone rows = .ok rows.head? := by
  match rows with
  | [] => rfl
  | [r] => rfl
  | r1 :: r2 :: rest => simp at h

theorem reminderSendLoop_all_ok (outcome : Int → String → SendOutcome)
    (text : String) (tids : List Int) (h : ∀ c t, outcome c t = SendOutcome.ok) :
    reminderSendLoop outcome text tids
      = (tids.map (fun tg => ScanEvent.sent tg text), false) := by
  induction tids with
  | nil => rfl
  | cons tg rest ih => simp [reminderSendLoop, h tg text, ih]

/-! ## C9: unparsable dates are logged and skipped, the scan continues -/

/-- C9: during a reminder scan, every fetched exam whose stored date string
does not parse contributes exactly one logged date-format error and no
sends, and the scan continues over the exams before and after it (the
per-exam `except ValueError` never aborts the scan). -/
theorem c9_unparsable_date_skipped (db : DB) (outcome : Int → String → SendOutcome)
    (today : Date) (pre post : List ExamRow) (e : ExamRow)
    (hfetch : fetchUpcomingExams db today = pre ++ e :: post)
    (hbad : parseDate e.holding_date = none) :
    processExamReminder db outcome today e = [ScanEvent.dateErrorLogged e.id]
    ∧ send_exam_reminders db outcome today
        = listFlatMap (processExamReminder db outcome today) pre
          ++ ScanEvent.dateErrorLogged e.id
            :: listFlatMap (processExamReminder db outcome today) post := by
  have hproc : processExamReminder db outcome today e = [ScanEvent.dateErrorLogged e.id] := by
    unfold processExamReminder
    rw [hbad]
  refine ⟨hproc, ?_⟩
  unfold send_exam_reminders
  rw [hfetch, listFlatMap_append, listFlatMap_cons, hproc]
  simp

/-- Witness for C9 on the concrete database: the badly-dated exam (id 2) is
fetched after the well-dated one, is logged and skipped, and the scan still
emits the reminder of the well-dated exam. -/
theorem c9_witness :
    processExamReminder dbW okSend todayW examBadDate
      = [ScanEvent.dateErrorLogged examBadDate.id]
    ∧ send_exam_reminders dbW okSend todayW
        = listFlatMap (processExamReminder dbW okSend todayW) [examW]
          ++ ScanEvent.dateErrorLogged examBadDate.id
            :: listFlatMap (processExamReminder dbW okSend todayW) [] :=
  c9_unparsable_date_skipped dbW okSend todayW [examW] [] examBadDate (by decide) (by decide)

/-! ## C1: reminders fire exactly at offsets 1 and 3 -/

/-- C1: on a scheduler scan (which processes exactly the fetched
future-dated exams), every fetched exam whose date parses sends the
templated reminder — parameterized by the exam's discipline, stored date
and the curator's full name — to each resolved recipient precisely when
`days_left` is exactly 1 or exactly 3, and contributes no send events for
any other `days_left`. -/
theorem c1_reminder_iff_offset (db : DB) (outcome : Int → String → SendOutcome)
    (today : Date) (e : ExamRow) (exam_date : Date) (cur : CuratorRow)
    (tids : List Int)
    (_hfetched : e ∈ fetchUpcomingExams db today)
    (hdate : parseDate e.holding_date = some exam_date)
    (hcur : (db.curators.filter (fun c => c.id == e.curator_id)).head? = some cur)
    (htids : get_telegram_ids_by_exam_id db e.id = .ok tids)
    (hok : ∀ c t, outcome c t = SendOutcome.ok) :
    send_exam_reminders db outcome today
      = listFlatMap (processExamReminder db outcome today) (fetchUpcomingExams db today)
    ∧ ((dayNumber exam_date - dayNumber today = 1 ∨ dayNumber exam_date - dayNumber today = 3) →
        processExamReminder db outcome today e
          = tids.map (fun tg => ScanEvent.sent tg
              (reminderText (examTypeText e.type) e.discipline
                (whenTextOf (dayNumber exam_date - dayNumber today))
                e.holding_date (curatorFioOf cur))))
    ∧ (¬(dayNumber exam_date - dayNumber today = 1 ∨ dayNumber exam_date - dayNumber today = 3) →
        processExamReminder db outcome today e = []) := by
  refine ⟨rfl, ?_, ?_⟩
  · intro hcase
    have hcond : (dayNumber exam_date - dayNumber today == 1
        || dayNumber exam_date - dayNumber today == 3) = true := by
      rcases hcase with h | h <;> simp [h]
    simp only [processExamReminder, hdate, hcur, hcond, htids, if_true]
    rw [reminderSendLoop_all_ok outcome _ tids hok]
    simp
  · intro hcase
    push_neg at hcase
    have hcond : (dayNumber exam_date - dayNumber today == 1
        || dayNumber exam_date - dayNumber today == 3) = false := by
      simp [hcase.1, hcase.2]
    simp only [processExamReminder, hdate, hcur, hcond]
    simp

/-- Witness for C1: on the witness database, `examW` is fetched, its date
parses, `days_left = 3`, and the scan sends exactly one templated reminder
to chat 555. -/
theorem c1_witness :
    (dayNumber ⟨2026, 10, 15⟩ - dayNumber todayW = 1
        ∨ dayNumber ⟨2026, 10, 15⟩ - dayNumber todayW = 3)
    ∧ processExamReminder dbW okSend todayW examW
        = [555].map (fun tg => ScanEvent.sent tg
            (reminderText (examTypeText examW.type) examW.discipline
              (whenTextOf (dayNumber ⟨2026, 10, 15⟩ - dayNumber todayW))
              examW.holding_date (curatorFioOf curW))) :=
  ⟨by decide,
    (c1_reminder_iff_offset dbW okSend todayW examW ⟨2026, 10, 15⟩ curW [555]
      (by decide) (by decide) (by decide) (by rfl) (fun _ _ => rfl)).2.1 (by decide)⟩

/-! ## C2: the Recipient Resolver's contract -/

/-- C2: for an exam identifier, the resolver (i) propagates a not-found
error when no exam row has that id, and (ii) when exactly one exam row has
that id, returns (not raises) the list whose members are precisely the
chat identifiers of `telegram` rows linked from a student of that exam's
group — so no handle of a handle-less student can appear — and (iii) that
list is empty (not an error) when no student of the group has a linked
handle. -/
theorem c2_recipient_resolver (db : DB) (exam_id : Int) (exam : ExamRow) :
    (db.exams.filter (fun e => e.id == exam_id) = [] →
      get_telegram_ids_by_exam_id db exam_id = .error .notFound)
    ∧ (db.exams.filter (fun e => e.id == exam_id) = [exam] →
        ∃ tids, get_telegram_ids_by_exam_id db exam_id = .ok tids
          ∧ (∀ chat, chat ∈ tids ↔
              ∃ t ∈ db.telegrams, t.telegram_id = chat
                ∧ ∃ s ∈ db.students, s.telegram_id = some t.id
                    ∧ s.group_id = exam.group_id)
          ∧ ((∀ s ∈ db.students, s.group_id = exam.group_id → s.telegram_id = none) →
              tids = [])) := by
  constructor
  · intro hnil
    unfold get_telegram_ids_by_exam_id
    rw [hnil]
    rfl
  · intro hone
    refine ⟨listFlatMap (fun (t : TelegramRow) =>
      (db.students.filter (fun s =>
        s.telegram_id == some t.id && s.group_id == exam.group_id)).map
          (fun _ => t.telegram_id)) db.telegrams, ?_, ?_, ?_⟩
    · unfold get_telegram_ids_by_exam_id
      rw [hone]
      rfl
    · intro chat
      rw [mem_listFlatMap]
      constructor
      · rintro ⟨t, htmem, hchat⟩
        rcases List.mem_map.mp hchat with ⟨s, hsmem, hceq⟩
        rcases List.mem_filter.mp hsmem with ⟨hsmem', hp⟩
        rcases Bool.and_eq_true .. |>.mp hp with ⟨hp1, hp2⟩
        exact ⟨t, htmem, hceq.symm ▸ rfl, s, hsmem', by simpa using hp1, by simpa using hp2⟩
      · rintro ⟨t, htmem, hchat, s, hsmem, hlink, hgrp⟩
        refine ⟨t, htmem, List.mem_map.mpr ⟨s, List.mem_filter.mpr ⟨hsmem, ?_⟩, hchat⟩⟩
        simp [hlink, hgrp]
    · intro hnone
      rw [listFlatMap_eq_nil_iff]
      intro t _
      rw [List.map_eq_nil_iff, List.filter_eq_nil_iff]
      intro s hsmem hp
      rcases Bool.and_eq_true .. |>.mp hp with ⟨hp1, _⟩
      have := hnone s hsmem
      rcases hs : s.telegram_id with _ | v
      · rw [hs] at hp1; simp at hp1
      · have : s.group_id = exam.group_id := by
          rcases Bool.and_eq_true .. |>.mp hp with ⟨_, hp2⟩
          simpa using hp2
        have hnil := hnone s hsmem this
        rw [hnil] at hp1; simp at hp1

/-- Witness for C2: on the witness database exactly one exam row has id 1,
and the resolver returns a list whose membership matches the
student-with-handle characterisation (student 2, who has no handle,
contributes nothing). -/
theorem c2_witness :
    dbW.exams.filter (fun e => e.id == 1) = [examW]
    ∧ ∃ tids, get_telegram_ids_by_exam_id dbW 1 = .ok tids
        ∧ (∀ chat, chat ∈ tids ↔
            ∃ t ∈ dbW.telegrams, t.telegram_id = chat
              ∧ ∃ s ∈ dbW.students, s.telegram_id = some t.id
                  ∧ s.group_id = examW.group_id)
        ∧ ((∀ s ∈ dbW.students, s.group_id = examW.group_id → s.telegram_id = none) →
            tids = []) :=
  ⟨by decide, (c2_recipient_resolver dbW 1 examW).2 (by decide)⟩

/-! ## C3: notifier behaviour under per-recipient delivery failure -/

theorem notifyEventOf_none (db : DB) (outcome : Int → String → SendOutcome)
    (n : MarkNotif) (hc : studentChat db n.student_id = none) :
    notifyEventOf db outcome n = NotifEvent.skipNoChatLogged n.student_id := by
  unfold notifyEventOf
  rw [hc]

theorem notifyEventOf_some (db : DB) (outcome : Int → String → SendOutcome)
    (n : MarkNotif) (chat : Int) (hc : studentChat db n.student_id = some chat) :
    notifyEventOf db outcome n
      = match outcome chat (markNotifText n.exam_name n.mark) with
        | SendOutcome.ok => NotifEvent.sent chat (markNotifText n.exam_name n.mark)
        | SendOutcome.badRequest => NotifEvent.sendFailLogged n.student_id
        | SendOutcome.otherError => NotifEvent.errorLogged n.student_id := by
  unfold notifyEventOf
  rw [hc]

theorem notify_student_mark_eq (db : DB) (outcome : Int → String → SendOutcome)
    (n : MarkNotif) :
    notify_student_mark db outcome n.student_id n.exam_name n.mark
      = [notifyEventOf db outcome n] := by
  rcases hc : studentChat db n.student_id with _ | chat
  · rw [notifyEventOf_none db outcome n hc]
    unfold notify_student_mark
    rw [hc]
  · rw [notifyEventOf_some db outcome n chat hc]
    unfold notify_student_mark
    rw [hc]
    cases ho : outcome chat (markNotifText n.exam_name n.mark) <;> simp only [ho]

theorem send_notifications_eq_map (db : DB) (outcome : Int → String → SendOutcome)
    (ns : List MarkNotif) :
    send_notifications_with_delay db outcome ns = ns.map (notifyEventOf db outcome) := by
  induction ns with
  | nil => rfl
  | cons n rest ih =>
    unfold send_notifications_with_delay at ih ⊢
    rw [listFlatMap_cons, notify_student_mark_eq, ih]
    rfl

theorem reminderSendLoop_no_other (outcome : Int → String → SendOutcome)
    (text : String) (tids : List Int)
    (hnb : ∀ tg ∈ tids, outcome tg text ≠ SendOutcome.otherError) :
    reminderSendLoop outcome text tids
      = (tids.map (fun tg =>
          if outcome tg text == SendOutcome.ok then ScanEvent.sent tg text
          else ScanEvent.sendFailLogged tg text), false) := by
  induction tids with
  | nil => rfl
  | cons tg rest ih =>
    have hrest : ∀ x ∈ rest, outcome x text ≠ SendOutcome.otherError :=
      fun x hx => hnb x (List.mem_cons_of_mem tg hx)
    cases h : outcome tg text with
    | ok => simp [reminderSendLoop, h, ih hrest]
    | badRequest => simp [reminderSendLoop, h, ih hrest]
    | otherError => exact absurd h (hnb tg (List.mem_cons_self tg rest))

/-- C3 counterexample: a batch of N = 2 recipients handed to the reminder
send loop, in which the single delivery to chat 1 fails with an exception
that is not `TelegramBadRequest` (M = 1).  The claim demands N - M = 1
observed successful send (to chat 2) and M = 1 logged failure; instead the
loop aborts and produces no events at all — the remaining delivery to
chat 2 is never attempted (the escape flag is raised to the per-exam
handler). -/
theorem c3_counterexample :
    reminderSendLoop chatOneCrashes "m" [1, 2] = ([], true)
    ∧ countSentScan (reminderSendLoop chatOneCrashes "m" [1, 2]).1 = 0
    ∧ countFailScan (reminderSendLoop chatOneCrashes "m" [1, 2]).1 = 0 := by
  decide

/-- C3 amended: the mark-notification loop (`send_notifications_with_delay`)
is total — it never raises, emits exactly one event per queued item in
input order, and for a batch of N resolvable recipients with M failed
deliveries observes exactly M logged failures and N - M successful sends,
for failures of any kind.  The reminder send loop guarantees the same only
when no delivery fails with a non-`TelegramBadRequest` exception: under
that proviso it also sends in input order with exactly M logged failures
and N - M sends and never escapes to the per-exam handler. -/
theorem c3_amended (db : DB) (outcome : Int → String → SendOutcome)
    (ns : List MarkNotif) (text : String) (tids : List Int)
    (hres : ∀ n ∈ ns, studentChat db n.student_id ≠ none)
    (hnb : ∀ tg ∈ tids, outcome tg text ≠ SendOutcome.otherError) :
    send_notifications_with_delay db outcome ns = ns.map (notifyEventOf db outcome)
    ∧ countFailNotif (send_notifications_with_delay db outcome ns)
        = (ns.filter (fun n =>
            match notifyEventOf db outcome n with
            | NotifEvent.sendFailLogged _ => true
            | NotifEvent.errorLogged _ => true
            | _ => false)).length
    ∧ countSentNotif (send_notifications_with_delay db outcome ns)
        + countFailNotif (send_notifications_with_delay db outcome ns) = ns.length
    ∧ reminderSendLoop outcome text tids
        = (tids.map (fun tg =>
            if outcome tg text == SendOutcome.ok then ScanEvent.sent tg text
            else ScanEvent.sendFailLogged tg text), false)
    ∧ countFailScan (reminderSendLoop outcome text tids).1
        = (tids.filter (fun tg =>
            match outcome tg text with
            | SendOutcome.ok => false
            | _ => true)).length
    ∧ countSentScan (reminderSendLoop outcome text tids).1
        + countFailScan (reminderSendLoop outcome text tids).1 = tids.length := by
  refine ⟨send_notifications_eq_map db outcome ns, ?_, ?_,
    reminderSendLoop_no_other outcome text tids hnb, ?_, ?_⟩
  · rw [send_notifications_eq_map]
    induction ns with
    | nil => rfl
    | cons n rest ih =>
      have ih' := ih (fun x hx => hres x (List.mem_cons_of_mem n hx))
      cases hev : notifyEventOf db outcome n <;>
        simp [countFailNotif, List.filter, hev] at ih' ⊢ <;> omega
  · rw [send_notifications_eq_map]
    induction ns with
    | nil => rfl
    | cons n rest ih =>
      have hn := hres n (List.mem_cons_self n rest)
      have ih' := ih (fun x hx => hres x (List.mem_cons_of_mem n hx))
      rcases hc : studentChat db n.student_id with _ | chat
      · exact absurd hc hn
      · have hev := notifyEventOf_some db outcome n chat hc
        cases ho : outcome chat (markNotifText n.exam_name n.mark) <;>
          simp only [ho] at hev <;>
          simp [countSentNotif, countFailNotif, List.filter, hev] at ih' ⊢ <;> omega
  · rw [reminderSendLoop_no_other outcome text tids hnb]
    induction tids with
    | nil => rfl
    | cons tg rest ih =>
      have ih' := ih (fun x hx => hnb x (List.mem_cons_of_mem tg hx))
      cases h : outcome tg text with
      | ok => simp [countFailScan, List.filter, h] at ih' ⊢; omega
      | badRequest => simp [countFailScan, List.filter, h] at ih' ⊢; omega
      | otherError => exact absurd h (hnb tg (List.mem_cons_self tg rest))
  · rw [reminderSendLoop_no_other outcome text tids hnb]
    induction tids with
    | nil => rfl
    | cons tg rest ih =>
      have ih' := ih (fun x hx => hnb x (List.mem_cons_of_mem tg hx))
      cases h : outcome tg text with
      | ok => simp [countSentScan, countFailScan, List.filter, h] at ih' ⊢; omega
      | badRequest => simp [countSentScan, countFailScan, List.filter, h] at ih' ⊢; omega
      | otherError => exact absurd h (hnb tg (List.mem_cons_self tg rest))

/-- Witness for C3 amended: one queued mark notification whose delivery
fails with `TelegramBadRequest` (N = 1, M = 1: zero sends, one logged
failure), and a reminder batch to chats 555 and 7 where only 555 fails with
`TelegramBadRequest` (N = 2, M = 1: one send, one logged failure, no
abort). -/
theorem c3_amended_witness :
    (∀ n ∈ [(⟨1, "Математика", some 5⟩ : MarkNotif)],
      studentChat dbW n.student_id ≠ none)
    ∧ (∀ tg ∈ [(555 : Int), 7], chat555BadRequest tg "m" ≠ SendOutcome.otherError)
    ∧ (send_notifications_with_delay dbW chat555BadRequest [⟨1, "Математика", some 5⟩]
        = [⟨1, "Математика", some 5⟩].map (notifyEventOf dbW chat555BadRequest)
      ∧ countFailNotif (send_notifications_with_delay dbW chat555BadRequest
            [⟨1, "Математика", some 5⟩])
          = ([(⟨1, "Математика", some 5⟩ : MarkNotif)].filter (fun n =>
              match notifyEventOf dbW chat555BadRequest n with
              | NotifEvent.sendFailLogged _ => true
              | NotifEvent.errorLogged _ => true
              | _ => false)).length
      ∧ countSentNotif (send_notifications_with_delay dbW chat555BadRequest
            [⟨1, "Математика", some 5⟩])
          + countFailNotif (send_notifications_with_delay dbW chat555BadRequest
              [⟨1, "Математика", some 5⟩]) = [(⟨1, "Математика", some 5⟩ : MarkNotif)].length
      ∧ reminderSendLoop chat555BadRequest "m" [555, 7]
          = ([(555 : Int), 7].map (fun tg =>
              if chat555BadRequest tg "m" == SendOutcome.ok then ScanEvent.sent tg "m"
              else ScanEvent.sendFailLogged tg "m"), false)
      ∧ countFailScan (reminderSendLoop chat555BadRequest "m" [555, 7]).1
          = ([(555 : Int), 7].filter (fun tg =>
              match chat555BadRequest tg "m" with
              | SendOutcome.ok => false
              | _ => true)).length
      ∧ countSentScan (reminderSendLoop chat555BadRequest "m" [555, 7]).1
          + countFailScan (reminderSendLoop chat555BadRequest "m" [555, 7]).1
          = [(555 : Int), 7].length) :=
  ⟨by decide, by decide,
    c3_amended dbW chat555BadRequest [⟨1, "Математика", some 5⟩] "m" [555, 7]
      (by decide) (by decide)⟩

/-! ## C4 and C10: batch mark upsert -/

theorem batchStep_ids_ok (item : MarkUpdateItem) (hsid : item.student_id ≠ 0)
    (heid : item.exam_id ≠ 0) :
    (item.student_id == 0 || item.exam_id == 0) = false := by
  simp [hsid, heid]

/-- C4: a batch item whose existing `(student, exam)` mark row already holds
the submitted value changes nothing: the row is untouched, `updated_count`
is not incremented and no notification is enqueued — and on the concrete
3-item scenario (1 unchanged, 2 changed) the batch commits
`updated_count = 2` with exactly the 2 notifications of the changed rows,
in order. -/
theorem c4_unchanged_mark_no_notification (db : DB) (item : MarkUpdateItem)
    (v : Option Int) (row : MarkRow)
    (hsid : item.student_id ≠ 0) (heid : item.exam_id ≠ 0)
    (hv : parseMarkValue item.mark = .ok v)
    (hdup : (db.exams.filter (fun e => e.id == item.exam_id)).length ≤ 1)
    (hrow : (db.marks.filter (fun r =>
        r.student_id == item.student_id && r.exam_id == item.exam_id)).head? = some row)
    (hsame : row.mark = v) :
    batchStep db db.marks item = .ok (db.marks, false, none)
    ∧ batch_update_marks db [item] = (db, .ok (0, []))
    ∧ batch_update_marks dbC4 [⟨1, 1, some "4"⟩, ⟨2, 1, some "5"⟩, ⟨3, 1, some "3"⟩]
        = (⟨[curW], [⟨1, "G1", 1⟩], dbC4.students, [examW],
            [⟨1, some 4, 1, 1⟩, ⟨2, some 5, 1, 2⟩, ⟨3, some 3, 1, 3⟩], [⟨1, 555⟩]⟩,
          .ok (2, [⟨2, "Математика", some 5⟩, ⟨3, "Математика", some 3⟩])) := by
  have hstep : batchStep db db.marks item = .ok (db.marks, false, none) := by
    unfold batchStep
    rw [batchStep_ids_ok item hsid heid]
    simp only [Bool.false_eq_true, if_false, hv]
    unfold get_exam_details
    rw [scalarOneOrNone_ok_of_short _ hdup]
    simp only [hrow]
    rw [if_neg (by simp [hsame])]
  refine ⟨hstep, ?_, by decide⟩
  unfold batch_update_marks
  have hgo : batchGo db [item] db.marks 0 [] = .ok (db.marks, 0, []) := by
    unfold batchGo
    rw [hstep]
    rfl
  rw [hgo]

/-- Witness for C4: re-submitting the value 4 already stored for
(student 1, exam 1) changes nothing and enqueues nothing. -/
theorem c4_witness :
    batchStep dbW dbW.marks ⟨1, 1, some "4"⟩ = .ok (dbW.marks, false, none)
    ∧ batch_update_marks dbW [⟨1, 1, some "4"⟩] = (dbW, .ok (0, []))
    ∧ batch_update_marks dbC4 [⟨1, 1, some "4"⟩, ⟨2, 1, some "5"⟩, ⟨3, 1, some "3"⟩]
        = (⟨[curW], [⟨1, "G1", 1⟩], dbC4.students, [examW],
            [⟨1, some 4, 1, 1⟩, ⟨2, some 5, 1, 2⟩, ⟨3, some 3, 1, 3⟩], [⟨1, 555⟩]⟩,
          .ok (2, [⟨2, "Математика", some 5⟩, ⟨3, "Математика", some 3⟩])) :=
  c4_unchanged_mark_no_notification dbW ⟨1, 1, some "4"⟩ (some 4) ⟨1, some 4, 1, 1⟩
    (by decide) (by decide) (by decide) (by decide) (by decide) (by decide)

/-- C10: a batch item for which no `(student, exam)` mark row exists inserts
a fresh row holding the submitted value — null included — increments
`updated_count` and enqueues a notification for the student; so a
single-item batch that files an ungraded placeholder still commits one new
row and enqueues exactly one notification. -/
theorem c10_insert_notifies_even_null (db : DB) (item : MarkUpdateItem)
    (v : Option Int) (exam_opt : Option ExamRow)
    (hsid : item.student_id ≠ 0) (heid : item.exam_id ≠ 0)
    (hv : parseMarkValue item.mark = .ok v)
    (hdet : get_exam_details db item.exam_id = .ok exam_opt)
    (hnorow : (db.marks.filter (fun r =>
        r.student_id == item.student_id && r.exam_id == item.exam_id)).head? = none) :
    batchStep db db.marks item
      = .ok (db.marks ++ [⟨nextMarkId db.marks, v, item.exam_id, item.student_id⟩], true,
          some ⟨item.student_id, examNameOf exam_opt, v⟩)
    ∧ batch_update_marks db [item]
        = (⟨db.curators, db.groups, db.students, db.exams,
            db.marks ++ [⟨nextMarkId db.marks, v, item.exam_id, item.student_id⟩],
            db.telegrams⟩,
          .ok (1, [⟨item.student_id, examNameOf exam_opt, v⟩])) := by
  have hstep : batchStep db db.marks item
      = .ok (db.marks ++ [⟨nextMarkId db.marks, v, item.exam_id, item.student_id⟩], true,
          some ⟨item.student_id, examNameOf exam_opt, v⟩) := by
    unfold batchStep
    rw [batchStep_ids_ok item hsid heid]
    simp only [Bool.false_eq_true, if_false, hv, hdet, hnorow]
    cases exam_opt <;> rfl
  refine ⟨hstep, ?_⟩
  unfold batch_update_marks
  have hgo : batchGo db [item] db.marks 0 []
      = .ok (db.marks ++ [⟨nextMarkId db.marks, v, item.exam_id, item.student_id⟩], 1,
          [⟨item.student_id, examNameOf exam_opt, v⟩]) := by
    unfold batchGo
    rw [hstep]
    rfl
  rw [hgo]

/-- Witness for C10: filing `"н/а"` (null) for student 2 on exam 1, which
has no mark row yet, inserts a null-valued row, counts it, and enqueues a
notification to student 2. -/
theorem c10_witness :
    batchStep dbW dbW.marks ⟨2, 1, some "н/а"⟩
      = .ok (dbW.marks ++ [⟨nextMarkId dbW.marks, none, 1, 2⟩], true,
          some ⟨2, examNameOf (some examW), none⟩)
    ∧ batch_update_marks dbW [⟨2, 1, some "н/а"⟩]
        = (⟨dbW.curators, dbW.groups, dbW.students, dbW.exams,
            dbW.marks ++ [⟨nextMarkId dbW.marks, none, 1, 2⟩], dbW.telegrams⟩,
          .ok (1, [⟨2, examNameOf (some examW), none⟩])) :=
  c10_insert_notifies_even_null dbW ⟨2, 1, some "н/а"⟩ none (some examW)
    (by decide) (by decide) (by decide) (by decide) (by decide)

/-! ## C5: accepted range of submitted mark values -/

/-- C5 counterexample: the batch mark update accepts the present value `1`,
which lies outside the claimed valid range 2..5: the update succeeds
(no 400-equivalent validation error) and a mark row holding `1` is
committed for (student 2, exam 1). -/
theorem c5_counterexample :
    batch_update_marks dbW [⟨2, 1, some "1"⟩]
      = (⟨dbW.curators, dbW.groups, dbW.students, dbW.exams,
          dbW.marks ++ [⟨2, some 1, 1, 2⟩], dbW.telegrams⟩,
        .ok (1, [⟨2, "Математика", some 1⟩]))
    ∧ (⟨2, some 1, 1, 2⟩ : MarkRow) ∈ (batch_update_marks dbW [⟨2, 1, some "1"⟩]).1.marks := by
  decide

/-- C5 amended: `batch_update_marks` validates a present value against the
range 0..5 (its own error message says so): an integer value outside 0..5
is rejected as a 400-equivalent with nothing committed, while every integer
value inside 0..5 — including 0 and 1 — passes the check; only
`import_marks_from_table` restricts non-null numeric values to 2..5,
rejecting others per-row with an out-of-range error and no row change. -/
theorem c5_amended (db db3 dbI : DB) (item item3 : MarkUpdateItem) (r r3 : String)
    (m m3 : Int) (entry : MarkImportEntry) (marks : List MarkRow)
    (last_name first_name : String) (rest : List String) (student : StudentRow)
    (rI : String) (mI : Int)
    (hm : pyIntOfString r = some m)
    (hr1 : lowerStr r ≠ "н/а") (hr2 : lowerStr r ≠ "нет") (hr3 : lowerStr r ≠ "")
    (hitem : item.mark = some r)
    (hout : m < 0 ∨ m > 5)
    (hsid : item.student_id ≠ 0) (heid : item.exam_id ≠ 0)
    (hm3 : pyIntOfString r3 = some m3)
    (hs1 : lowerStr r3 ≠ "н/а") (hs2 : lowerStr r3 ≠ "нет") (hs3 : lowerStr r3 ≠ "")
    (hitem3 : item3.mark = some r3)
    (hin : 0 ≤ m3 ∧ m3 ≤ 5)
    (hsid3 : item3.student_id ≠ 0) (heid3 : item3.exam_id ≠ 0)
    (hdup3 : (db3.exams.filter (fun e => e.id == item3.exam_id)).length ≤ 1)
    (hname : pySplitWs (pyStrip entry.last_fist_name) = last_name :: first_name :: rest)
    (hstud : (dbI.students.filter (fun s =>
        ilikeEq s.first_name first_name && ilikeEq s.last_name last_name)).head?
      = some student)
    (hmarkI : entry.mark = some rI)
    (hna1 : lowerStr (pyStrip rI) ≠ "н/а") (hna2 : lowerStr (pyStrip rI) ≠ "na")
    (hparse : pyIntOfString (lowerStr (pyStrip rI)) = some mI)
    (houtI : mI ≠ 2 ∧ mI ≠ 3 ∧ mI ≠ 4 ∧ mI ≠ 5) :
    parseMarkValue (some r) = .error .badRequest
    ∧ batch_update_marks db [item] = (db, .error .badRequest)
    ∧ parseMarkValue (some r3) = .ok (some m3)
    ∧ (∃ res, batchStep db3 db3.marks item3 = .ok res)
    ∧ importStep dbI marks entry = (marks, false, some ImportErr.outOfRange) := by
  have hspec : (lowerStr r == "н/а" || lowerStr r == "нет" || lowerStr r == "") = false := by
    simp [hr1, hr2, hr3]
  have hrange : (decide (m < 0) || decide (m > 5)) = true := by
    rcases hout with h | h <;> simp [h]
  have hpv : parseMarkValue (some r) = .error .badRequest := by
    unfold parseMarkValue
    simp only [hspec, Bool.false_eq_true, if_false, hm, hrange, if_true]
  have hspec3 : (lowerStr r3 == "н/а" || lowerStr r3 == "нет" || lowerStr r3 == "") = false := by
    simp [hs1, hs2, hs3]
  have hrange3 : (decide (m3 < 0) || decide (m3 > 5)) = false := by
    have h1 : ¬ m3 < 0 := by omega
    have h2 : ¬ m3 > 5 := by omega
    simp [h1, h2]
  have hpv3 : parseMarkValue (some r3) = .ok (some m3) := by
    unfold parseMarkValue
    simp only [hspec3, Bool.false_eq_true, if_false, hm3, hrange3, if_true]
  refine ⟨hpv, ?_, hpv3, ?_, ?_⟩
  · have hstep : batchStep db db.marks item = .error .badRequest := by
      unfold batchStep
      rw [batchStep_ids_ok item hsid heid]
      simp only [Bool.false_eq_true, if_false, hitem, hpv]
    unfold batch_update_marks
    have hgo : batchGo db [item] db.marks 0 [] = .error .badRequest := by
      unfold batchGo
      rw [hstep]
    rw [hgo]
  · have hged : get_exam_details db3 item3.exam_id
        = .ok ((db3.exams.filter (fun e => e.id == item3.exam_id)).head?) := by
      unfold get_exam_details
      exact scalarOneOrNone_ok_of_short _ hdup3
    unfold batchStep
    rw [batchStep_ids_ok item3 hsid3 heid3]
    simp only [Bool.false_eq_true, if_false, hitem3, hpv3, hged]
    cases hhead : (db3.marks.filter (fun rr =>
        rr.student_id == item3.student_id && rr.exam_id == item3.exam_id)).head? with
    | none => exact ⟨_, rfl⟩
    | some row => split <;> split <;> exact ⟨_, rfl⟩
  · have hra : (lowerStr (pyStrip rI) == "н/а" || lowerStr (pyStrip rI) == "na") = false := by
      simp [hna1, hna2]
    have hri : (mI == 2 || mI == 3 || mI == 4 || mI == 5) = false := by
      simp [houtI.1, houtI.2.1, houtI.2.2.1, houtI.2.2.2]
    unfold importStep
    rw [hname]
    simp only [hstud, hmarkI, Option.map, hra, Bool.false_eq_true, if_false,
      hparse, hri]

/-- Witness for C5 amended: the value 7 is rejected by the batch path with
nothing committed, the value 1 passes the batch path's 0..5 check, and
the import path rejects the value 1 as out of range 2..5 (no row change). -/
theorem c5_amended_witness :
    parseMarkValue (some "7") = .error .badRequest
    ∧ batch_update_marks dbW [⟨2, 1, some "7"⟩] = (dbW, .error .badRequest)
    ∧ parseMarkValue (some "1") = .ok (some 1)
    ∧ (∃ res, batchStep dbW dbW.marks ⟨2, 1, some "1"⟩ = .ok res)
    ∧ importStep dbW dbW.marks ⟨1, "Смирнов Олег", some "1"⟩
        = (dbW.marks, false, some ImportErr.outOfRange) :=
  c5_amended dbW dbW dbW ⟨2, 1, some "7"⟩ ⟨2, 1, some "1"⟩ "7" "1" 7 1
    ⟨1, "Смирнов Олег", some "1"⟩ dbW.marks "Смирнов" "Олег" []
    ⟨1, "Олег", "Смирнов", "Иванович", 1, some 1, none, false⟩ "1" 1
    (by decide) (by decide) (by decide) (by decide) (by decide) (by decide)
    (by decide) (by decide) (by decide) (by decide) (by decide) (by decide)
    (by decide) (by decide) (by decide) (by decide) (by decide) (by decide)
    (by decide) (by decide) (by decide) (by decide) (by decide) (by decide)

/-! ## C6: behaviour of the name-entry state on a failed lookup -/

/-- C6 counterexample: in the `fio` (EnteringFullName) state with role
"student", the 3-token name "зайцев пётр ильич" matches no principal in the
witness database; the handler replies with the failure message but the
conversation is NOT cleared — it stays in the `fio` state with its data
retained (the claim asserts the state is cleared). -/
theorem c6_counterexample :
    (fio_handler dbW convFio "зайцев пётр ильич").2 = [BotReply.userNotFound]
    ∧ (fio_handler dbW convFio "зайцев пётр ильич").1.state = RegState.fio
    ∧ (fio_handler dbW convFio "зайцев пётр ильич").1 ≠ ⟨RegState.idle, emptyConvData⟩ := by
  decide

/-- C6 amended: on a 3-token name input that matches no principal of the
chosen role, the flow sends the failure message and remains in
`EnteringFullName` with its conversation data retained (only the entered
name is stored, lower-cased) — the state is neither cleared nor moved back
to `ChoosingRole`, so the user may try another name directly. -/
theorem c6_amended (db : DB) (conv : Conv) (text t0 t1 t2 : String)
    (hstate : conv.state = RegState.fio)
    (hsplit : pySplitWs (pyStrip text) = [t0, t1, t2])
    (hfound : (if conv.data.role == some "student"
        then (get_student_by_fio db t1 t0 t2).map (fun s => s.id)
        else (get_curator_by_fio db t1 t0 t2).map (fun c => c.id)) = none) :
    fio_handler db conv text
      = (⟨RegState.fio,
          ⟨conv.data.role, some (lowerStr (pyStrip text)), conv.data.user_id,
            conv.data.fio_prompt_msg_id⟩⟩,
        [BotReply.userNotFound])
    ∧ (fio_handler db conv text).1.state ≠ RegState.choosing_role
    ∧ (fio_handler db conv text).1.state ≠ RegState.idle := by
  have hval : validate_fio (pyStrip text) = true := by
    unfold validate_fio
    rw [hsplit]
    rfl
  have heq : fio_handler db conv text
      = (⟨RegState.fio,
          ⟨conv.data.role, some (lowerStr (pyStrip text)), conv.data.user_id,
            conv.data.fio_prompt_msg_id⟩⟩,
        [BotReply.userNotFound]) := by
    unfold fio_handler
    simp only [hval, Bool.not_true, Bool.false_eq_true, if_false, hsplit, hfound, hstate]
  refine ⟨heq, ?_, ?_⟩ <;> rw [heq] <;> simp

/-- Witness for C6 amended: the concrete failed lookup of
"зайцев пётр ильич" on the witness database keeps the conversation in the
name-entry state. -/
theorem c6_amended_witness :
    fio_handler dbW convFio "зайцев пётр ильич"
      = (⟨RegState.fio,
          ⟨convFio.data.role, some (lowerStr (pyStrip "зайцев пётр ильич")),
            convFio.data.user_id, convFio.data.fio_prompt_msg_id⟩⟩,
        [BotReply.userNotFound])
    ∧ (fio_handler dbW convFio "зайцев пётр ильич").1.state ≠ RegState.choosing_role
    ∧ (fio_handler dbW convFio "зайцев пётр ильич").1.state ≠ RegState.idle :=
  c6_amended dbW convFio "зайцев пётр ильич" "зайцев" "пётр" "ильич"
    (by decide) (by decide) (by decide)

/-! ## C7: curator scoping of list queries -/

/-- C7 counterexample: curator 1 owns no group in `dbC7`, yet the exam list
query returns the exam whose `curator_id` is 1 — the exam query is scoped
by the exam's own curator reference, not through group ownership, so "a
curator owning no groups receives the empty set" fails for the exams
query (it does hold for the groups query on the same database). -/
theorem c7_counterexample :
    dbC7.groups = []
    ∧ get_all_groups dbC7 ⟨1, "curator"⟩ = []
    ∧ get_all_exams dbC7 "exam" ⟨1, "curator"⟩ = [examW]
    ∧ get_all_exams dbC7 "exam" ⟨1, "curator"⟩ ≠ [] := by
  decide

/-- C7 amended: for a curator caller every list query returns only records
owned by that curator (groups by `group.curator_id`, exams by the exam's
own `curator_id`, students through their group's curator), an admin's
results are unscoped, and a curator owning no groups receives the empty
set — not an error — from the groups and students queries, while the exams
query is empty exactly when the curator also owns no exam of the requested
type. -/
theorem c7_amended (db : DB) (etype : String) (cu au : CurrentUser)
    (hcu : cu.role = "curator") (hau : au.role = "admin") :
    (∀ e ∈ get_all_exams db etype cu, e.curator_id = cu.id ∧ e.type = etype)
    ∧ (∀ g ∈ get_all_groups db cu, g.curator_id = cu.id)
    ∧ (∀ s ∈ get_all_students db cu,
        ∃ g ∈ db.groups, g.id = s.group_id ∧ g.curator_id = cu.id)
    ∧ get_all_exams db etype au = db.exams.filter (fun e => e.type == etype)
    ∧ get_all_groups db au = db.groups.map (fun g =>
        ⟨g.id, g.name, g.curator_id,
          (db.students.filter (fun s => s.group_id == g.id)).length⟩)
    ∧ get_all_students db au = db.students
    ∧ ((∀ g ∈ db.groups, g.curator_id ≠ cu.id) →
        get_all_groups db cu = [] ∧ get_all_students db cu = [])
    ∧ (get_all_exams db etype cu = [] ↔
        ∀ e ∈ db.exams, e.type = etype → e.curator_id ≠ cu.id) := by
  have hccu : (cu.role == "curator") = true := by simp [hcu]
  have hcau : (au.role == "curator") = false := by simp [hau]
  refine ⟨?_, ?_, ?_, ?_, ?_, ?_, ?_, ?_⟩
  · intro e he
    unfold get_all_exams at he
    rw [hccu] at he
    simp only [if_true] at he
    rcases List.mem_filter.mp he with ⟨he1, he2⟩
    rcases List.mem_filter.mp he1 with ⟨_, he3⟩
    exact ⟨by simpa using he2, by simpa using he3⟩
  · intro g hg
    unfold get_all_groups at hg
    rw [hccu] at hg
    simp only [if_true] at hg
    rcases List.mem_map.mp hg with ⟨g0, hg0, hgeq⟩
    rcases List.mem_filter.mp hg0 with ⟨_, hp⟩
    rw [← hgeq]
    simpa using hp
  · intro s hs
    unfold get_all_students at hs
    rw [hccu] at hs
    simp only [if_true] at hs
    rcases List.mem_filter.mp hs with ⟨_, hp⟩
    rcases List.any_eq_true.mp hp with ⟨g, hgmem, hgp⟩
    rcases Bool.and_eq_true .. |>.mp hgp with ⟨h1, h2⟩
    exact ⟨g, hgmem, by simpa using h1, by simpa using h2⟩
  · unfold get_all_exams
    rw [hcau]
    simp
  · unfold get_all_groups
    rw [hcau]
    simp
  · unfold get_all_students
    rw [hcau]
    simp
  · intro hng
    constructor
    · unfold get_all_groups
      rw [hccu]
      simp only [if_true]
      rw [List.filter_eq_nil_iff.mpr (fun g hg => by simpa using hng g hg)]
      rfl
    · unfold get_all_students
      rw [hccu]
      simp only [if_true]
      rw [List.filter_eq_nil_iff]
      intro s _ hp
      rcases List.any_eq_true.mp hp with ⟨g, hgmem, hgp⟩
      rcases Bool.and_eq_true .. |>.mp hgp with ⟨_, h2⟩
      exact hng g hgmem (by simpa using h2)
  · unfold get_all_exams
    rw [hccu]
    simp only [if_true]
    rw [List.filter_eq_nil_iff]
    constructor
    · intro h e hmem htype
      intro hcid
      exact h e (List.mem_filter.mpr ⟨hmem, by simpa using htype⟩) (by simpa using hcid)
    · intro h e hmem
      rcases List.mem_filter.mp hmem with ⟨hmem', htype⟩
      have := h e hmem' (by simpa using htype)
      simpa using this

/-- Witness for C7 amended: concrete curator caller 1 and admin caller 9 on
the counterexample database (curator 1 owns no groups but one exam). -/
theorem c7_amended_witness :
    (∀ e ∈ get_all_exams dbC7 "exam" ⟨1, "curator"⟩, e.curator_id = 1 ∧ e.type = "exam")
    ∧ (∀ g ∈ get_all_groups dbC7 ⟨1, "curator"⟩, g.curator_id = 1)
    ∧ (∀ s ∈ get_all_students dbC7 ⟨1, "curator"⟩,
        ∃ g ∈ dbC7.groups, g.id = s.group_id ∧ g.curator_id = 1)
    ∧ get_all_exams dbC7 "exam" ⟨9, "admin"⟩ = dbC7.exams.filter (fun e => e.type == "exam")
    ∧ get_all_groups dbC7 ⟨9, "admin"⟩ = dbC7.groups.map (fun g =>
        ⟨g.id, g.name, g.curator_id,
          (dbC7.students.filter (fun s => s.group_id == g.id)).length⟩)
    ∧ get_all_students dbC7 ⟨9, "admin"⟩ = dbC7.students
    ∧ ((∀ g ∈ dbC7.groups, g.curator_id ≠ 1) →
        get_all_groups dbC7 ⟨1, "curator"⟩ = [] ∧ get_all_students dbC7 ⟨1, "curator"⟩ = [])
    ∧ (get_all_exams dbC7 "exam" ⟨1, "curator"⟩ = [] ↔
        ∀ e ∈ dbC7.exams, e.type = "exam" → e.curator_id ≠ 1) :=
  c7_amended dbC7 "exam" ⟨1, "curator"⟩ ⟨9, "admin"⟩ rfl rfl

theorem head?_filter_mem {p : α → Bool} {l : List α} {x : α}
    (h : (l.filter p).head? = some x) : x ∈ l ∧ p x = true := by
  cases hfl : l.filter p with
  | nil => rw [hfl] at h; cases h
  | cons a as =>
    rw [hfl] at h
    have hax : a = x := by injection h
    subst hax
    have hmem : a ∈ l.filter p := by
      rw [hfl]
      exact List.mem_cons_self a as
    exact List.mem_filter.mp hmem

/-! ## C8: the /start idempotence guard -/

/-- C8: when the caller's chat identifier is already bound to a principal
(a `telegram` row holding that chat id is linked from a student row), the
`/start` entry point replies "already registered" and performs no
transition into `choosing_role` — the conversation is left cleared.  In
particular this holds for a second `/start` right after a successful
registration (`set_student_password_and_telegram`), whatever database that
registration committed. -/
theorem c8_already_registered_short_circuits (db db2 db2' : DB) (chat chat2 : Int)
    (conv conv2 : Conv) (sid : Int) (pwd : String)
    (hbound : ∃ t ∈ db.telegrams, t.telegram_id = chat
        ∧ ∃ s ∈ db.students, s.telegram_id = some t.id)
    (hreg : set_student_password_and_telegram db2 sid pwd chat2 = .ok db2') :
    send_welcome_photo db chat conv = (⟨RegState.idle, emptyConvData⟩, [.alreadyRegistered])
    ∧ (send_welcome_photo db chat conv).1.state ≠ RegState.choosing_role
    ∧ send_welcome_photo db2' chat2 conv2
        = (⟨RegState.idle, emptyConvData⟩, [.alreadyRegistered])
    ∧ (send_welcome_photo db2' chat2 conv2).1.state ≠ RegState.choosing_role := by
  have hshort : ∀ (d : DB) (c : Int) (cv : Conv),
      (∃ t ∈ d.telegrams, t.telegram_id = c) →
      send_welcome_photo d c cv = (⟨RegState.idle, emptyConvData⟩, [.alreadyRegistered]) := by
    intro d c cv ⟨t, htmem, hchat⟩
    unfold send_welcome_photo
    have hmem : c ∈ d.telegrams.map (fun t => t.telegram_id) :=
      List.mem_map.mpr ⟨t, htmem, hchat⟩
    have hcontains : (d.telegrams.map (fun t => t.telegram_id)).contains c = true := by
      exact List.elem_eq_true_of_mem hmem
    rw [hcontains]
    rfl
  rcases hbound with ⟨t, htmem, hchat, _⟩
  have h1 := hshort db chat conv ⟨t, htmem, hchat⟩
  have h2 : ∃ t2 ∈ db2'.telegrams, t2.telegram_id = chat2 := by
    unfold set_student_password_and_telegram at hreg
    cases hh : (db2.students.filter (fun s => s.id == sid)).head? with
    | none => rw [hh] at hreg; cases hreg
    | some st =>
      rw [hh] at hreg
      cases hex : (db2.telegrams.filter (fun tt => tt.telegram_id == chat2)).head? with
      | some trow =>
        rw [hex] at hreg
        rcases head?_filter_mem hex with ⟨hmem2, hp2⟩
        refine ⟨trow, ?_, by simpa using hp2⟩
        have : db2'.telegrams = db2.telegrams := by
          cases hreg
          rfl
        rw [this]
        exact hmem2
      | none =>
        rw [hex] at hreg
        refine ⟨⟨nextTelegramRowId db2.telegrams, chat2⟩, ?_, rfl⟩
        have : db2'.telegrams
            = db2.telegrams ++ [⟨nextTelegramRowId db2.telegrams, chat2⟩] := by
          cases hreg
          rfl
        rw [this]
        exact List.mem_append_right _ (List.mem_cons_self _ _)
  have h3 := hshort db2' chat2 conv2 h2
  refine ⟨h1, by rw [h1]; simp, h3, by rw [h3]; simp⟩

/-- Witness for C8: chat 555 is bound to student 1 in the witness database,
so `/start` short-circuits; and after registering student 2 from chat 777
(committing `dbWreg`), a second `/start` from chat 777 short-circuits as
well. -/
theorem c8_witness :
    send_welcome_photo dbW 555 convFio = (⟨RegState.idle, emptyConvData⟩, [.alreadyRegistered])
    ∧ (send_welcome_photo dbW 555 convFio).1.state ≠ RegState.choosing_role
    ∧ send_welcome_photo dbWreg 777 ⟨RegState.idle, emptyConvData⟩
        = (⟨RegState.idle, emptyConvData⟩, [.alreadyRegistered])
    ∧ (send_welcome_photo dbWreg 777 ⟨RegState.idle, emptyConvData⟩).1.state
        ≠ RegState.choosing_role :=
  c8_already_registered_short_circuits dbW dbW dbWreg 555 777 convFio
    ⟨RegState.idle, emptyConvData⟩ 2 "pass"
    ⟨⟨1, 555⟩, by decide, by decide, ⟨1, "Олег", "Смирнов", "Иванович", 1, some 1, none,
      false⟩, by decide, by decide⟩
    (by decide)
